import Mathlib

/-!
Shallow embedding of the FealtyX student CRUD service (`main.go`) and its
summary generator. The Go `map[int]Student` store is modelled as a function
`Int → Option Student`; each HTTP handler becomes a pure function from its
already-decoded inputs to an `Except` result, with mutating handlers also
returning the post-state of the store. The remote Ollama service is an
oracle mapping the prompt string sent to it to an abstract response.
-/

/-- A student record, mirroring `type Student struct` in `main.go`
(fields `ID int`, `Name string`, `Age int`, `Email string`). -/
structure Student where
  id : Int
  name : String
  age : Int
  email : String
deriving DecidableEq, Repr

/-- The in-memory store `students map[int]Student`, modelled as a partial
map from ids to records. -/
def Store : Type := Int → Option Student

/-- The initial empty store (`make(map[int]Student)`). -/
def emptyStore : Store := fun _ => none

/-- Go map assignment `students[k] = v`. -/
def insertS (st : Store) (k : Int) (v : Student) : Store :=
  fun q => if q = k then some v else st q

/-- Go map deletion `delete(students, k)`. -/
def eraseS (st : Store) (k : Int) : Store :=
  fun q => if q = k then none else st q

/-- The reason a summary generation attempt against the remote Ollama
service failed, one constructor per `return "", fmt.Errorf(...)` site in
`generateSummaryWithOllama`. -/
inductive GenCause where
  /-- `error making POST request to Ollama` (transport failure). -/
  | transport
  /-- `Ollama API returned non-200 status code` (carries the code). -/
  | httpStatus (code : Int)
  /-- `error decoding Ollama response` (body is not valid JSON). -/
  | decode
  /-- `unexpected response format from Ollama` (no string field named
  `response` in the parsed body). -/
  | badFormat
  /-- `Ollama returned an empty summary`. -/
  | emptyFromRemote
deriving DecidableEq, Repr

/-- The error taxonomy of the handlers, one constructor per distinct
user-visible failure class of `main.go` (400 invalid input, 409 conflict,
404 not found, 500 generation failure, 500 empty summary). -/
inductive ApiError where
  | invalidInput
  | alreadyExists
  | notFound
  | generationFailed (cause : GenCause)
  | emptySummary
deriving DecidableEq, Repr

/-- What `json.Unmarshal` plus the `result["response"].(string)` assertion
extract from the remote response body. -/
inductive BodyParse where
  /-- the body is not valid JSON (`json.Unmarshal` fails). -/
  | malformed
  /-- the body parses but has no string field `response`. -/
  | missingField
  /-- the body parses and `response` is the string `s`. -/
  | field (s : String)
deriving DecidableEq, Repr

/-- An HTTP response from the remote generation service: status code plus
the outcome of parsing its body. -/
structure HttpResponse where
  status : Int
  body : BodyParse
deriving DecidableEq, Repr

/-- Outcome of one POST to the Ollama generate endpoint. -/
inductive RemoteResult where
  /-- `client.Do(req)` returned an error (timeout, refused connection...). -/
  | transportError
  /-- a response came back. -/
  | response (r : HttpResponse)
deriving DecidableEq, Repr

/-- The remote service as an oracle: what comes back for a given prompt. -/
def RemoteService : Type := String → RemoteResult

/-- `func validateID(id int) bool`: `id >= 10000000 && id <= 99999999`. -/
def validateID (id : Int) : Bool :=
  decide (10000000 ≤ id ∧ id ≤ 99999999)

/-- `func createStudent` (`main.go` lines 90-120), after JSON decoding:
validate the id range, validate the fields, reject an existing id,
otherwise insert. Returns the handler outcome and the post-state. -/
def createStudent (student : Student) (st : Store) :
    Except ApiError Student × Store :=
  if ¬ validateID student.id then (.error .invalidInput, st)
  else if student.name = "" ∨ student.age ≤ 0 ∨ student.email = "" then
    (.error .invalidInput, st)
  else match st student.id with
    | some _ => (.error .alreadyExists, st)
    | none => (.ok student, insertS st student.id student)

/-- `func getStudent` (`main.go` lines 134-153), after path parsing. -/
def getStudent (id : Int) (st : Store) : Except ApiError Student :=
  if ¬ validateID id then .error .invalidInput
  else match st id with
    | none => .error .notFound
    | some student => .ok student

/-- `func updateStudent` (`main.go` lines 155-192): validate the path id,
reject a body id that differs from the path id, validate the fields,
reject an absent id, otherwise replace the stored record. -/
def updateStudent (id : Int) (student : Student) (st : Store) :
    Except ApiError Student × Store :=
  if ¬ validateID id then (.error .invalidInput, st)
  else if student.id ≠ id then (.error .invalidInput, st)
  else if student.name = "" ∨ student.age ≤ 0 ∨ student.email = "" then
    (.error .invalidInput, st)
  else match st id with
    | none => (.error .notFound, st)
    | some _ => (.ok student, insertS st id student)

/-- `func deleteStudent` (`main.go` lines 194-213): validate the path id,
reject an absent id, otherwise remove the record and answer 204 No Content
(modelled as `ok ()`). -/
def deleteStudent (id : Int) (st : Store) : Except ApiError Unit × Store :=
  if ¬ validateID id then (.error .invalidInput, st)
  else match st id with
    | none => (.error .notFound, st)
    | some _ => (.ok (), eraseS st id)

/-- The prompt `generateSummaryWithOllama` builds from the record
(`fmt.Sprintf` at `main.go` line 258). -/
def ollamaPrompt (student : Student) : String :=
  "Summarize this student profile using only the provided details. Be brief, accurate, and creative:\n\nProfile:\n- Name: " ++
    student.name ++ "\n- Age: " ++ toString student.age ++ "\n- Email: " ++
    student.email ++
    "\n\nNote: Make the summary catchy and to the point without adding any extra information."

/-- `func generateSummaryWithOllama` (`main.go` lines 256-315): send the
prompt, fail on transport error, on a non-200 status, on an unparseable
body, on a missing `response` field, and on an empty summary; otherwise
return the summary text. -/
def generateSummaryWithOllama (student : Student) (svc : RemoteService) :
    Except GenCause String :=
  match svc (ollamaPrompt student) with
  | .transportError => .error .transport
  | .response r =>
    if r.status ≠ 200 then .error (.httpStatus r.status)
    else match r.body with
      | .malformed => .error .decode
      | .missingField => .error .badFormat
      | .field s => if s = "" then .error .emptyFromRemote else .ok s

/-- The deterministic fallback sentence (`fmt.Sprintf` at `main.go`
line 318). -/
def fallbackText (student : Student) : String :=
  "Student " ++ student.name ++ " is " ++ toString student.age ++
    " years old and can be contacted at " ++ student.email ++ "."

/-- `func generateFallbackSummary` (`main.go` lines 317-320): always
succeeds with the template sentence. -/
def generateFallbackSummary (student : Student) : Except GenCause String :=
  .ok (fallbackText student)

/-- The tail of `getStudentSummary` (`main.go` lines 239-249): a
generation error becomes a 500 `generationFailed`; an empty successful
summary becomes a 500 `emptySummary`; otherwise the text is returned. -/
def finishSummary : Except GenCause String → Except ApiError String
  | .error c => .error (.generationFailed c)
  | .ok s => if s = "" then .error .emptySummary else .ok s

/-- The generation step of `getStudentSummary` (`main.go` lines 232-249):
branch on the one-shot `useOllama` flag, then apply the error and
emptiness checks. -/
def generateSummary (useOllama : Bool) (student : Student)
    (svc : RemoteService) : Except ApiError String :=
  finishSummary
    (if useOllama then generateSummaryWithOllama student svc
     else generateFallbackSummary student)

/-- `func getStudentSummary` (`main.go` lines 214-254), after path
parsing: validate the id, look the record up, then generate. Read-only on
the store. -/
def getStudentSummary (id : Int) (st : Store) (useOllama : Bool)
    (svc : RemoteService) : Except ApiError String :=
  if ¬ validateID id then .error .invalidInput
  else match st id with
    | none => .error .notFound
    | some student => generateSummary useOllama student svc

/-- One mutating request, for phrasing reachability of store states. -/
inductive Op where
  | create (student : Student)
  | update (id : Int) (student : Student)
  | delete (id : Int)
deriving DecidableEq, Repr

/-- The store state after serving one mutating request. -/
def applyOp (op : Op) (st : Store) : Store :=
  match op with
  | .create student => (createStudent student st).2
  | .update id student => (updateStudent id student st).2
  | .delete id => (deleteStudent id st).2

/-- Store states reachable from the empty store by serving mutating
requests. -/
inductive Reachable : Store → Prop where
  | base : Reachable emptyStore
  | step (op : Op) (st : Store) : Reachable st → Reachable (applyOp op st)

/-- Every stored record is valid and stored under its own id. -/
def StoreInv (st : Store) : Prop :=
  ∀ k s, st k = some s →
    (10000000 ≤ s.id ∧ s.id ≤ 99999999) ∧
      s.name ≠ "" ∧ s.email ≠ "" ∧ 0 < s.age ∧ s.id = k

/-- The record of the worked example in the specification. -/
def ada : Student := ⟨12345678, "Ada", 30, "ada@x.com"⟩

example : validateID 12345678 = true := by decide
example : validateID 5 = false := by decide
example : (createStudent ada emptyStore).1 = .ok ada := rfl
example : getStudent 12345678 (createStudent ada emptyStore).2 = .ok ada := rfl
example : fallbackText ada = "Student Ada is 30 years old and can be contacted at ada@x.com." := rfl

/-- A non-empty string has positive length. -/
lemma length_pos_of_ne_empty (s : String) (h : s ≠ "") : 0 < s.length := by
  rcases s with ⟨data⟩
  cases data with
  | nil => simp at h
  | cons c cs => simp [String.length]

/-- The fallback sentence is never the empty string: it starts with the
eight characters of `"Student "`. -/
lemma fallbackText_ne_empty (student : Student) : fallbackText student ≠ "" := by
  intro h
  have hl := congrArg String.length h
  simp [fallbackText, String.length_append,
    show ("Student " : String).length = 8 from rfl] at hl

/-- C2: for every id outside [10000000, 99999999], Get, Update, Delete and
Summary all fail with `invalidInput`, and the mutating ones return the
store unchanged. -/
theorem invalid_id_rejected_everywhere (id : Int) (h : ¬ validateID id)
    (st : Store) (body : Student) (useOllama : Bool) (svc : RemoteService) :
    getStudent id st = .error .invalidInput ∧
    updateStudent id body st = (.error .invalidInput, st) ∧
    deleteStudent id st = (.error .invalidInput, st) ∧
    getStudentSummary id st useOllama svc = .error .invalidInput := by
  refine ⟨?_, ?_, ?_, ?_⟩ <;>
    simp [getStudent, updateStudent, deleteStudent, getStudentSummary, h]

/-- C2 witness: id 5 is rejected by every id-taking operation. -/
theorem invalid_id_rejected_everywhere_witness :
    getStudent 5 emptyStore = .error .invalidInput ∧
    updateStudent 5 ada emptyStore = (.error .invalidInput, emptyStore) ∧
    deleteStudent 5 emptyStore = (.error .invalidInput, emptyStore) ∧
    getStudentSummary 5 emptyStore false (fun _ => .transportError) =
      .error .invalidInput :=
  invalid_id_rejected_everywhere 5 (by decide) emptyStore ada false
    (fun _ => .transportError)

/-- C3: creating a valid record whose id is absent succeeds, returns the
record unchanged, and a subsequent Get on that id returns the same
record. -/
theorem create_then_get_roundtrip (s : Student) (st : Store)
    (hid : validateID s.id) (hname : s.name ≠ "") (hage : 0 < s.age)
    (hmail : s.email ≠ "") (habs : st s.id = none) :
    (createStudent s st).1 = .ok s ∧
    getStudent s.id (createStudent s st).2 = .ok s := by
  have hfields : ¬ (s.name = "" ∨ s.age ≤ 0 ∨ s.email = "") := by
    push_neg
    exact ⟨hname, by omega, hmail⟩
  constructor
  · simp [createStudent, hid, hfields, habs]
  · simp [createStudent, getStudent, hid, hfields, habs, insertS]

/-- C3 witness: the specification's worked example record round-trips
from the empty store. -/
theorem create_then_get_roundtrip_witness :
    (createStudent ada emptyStore).1 = .ok ada ∧
    getStudent ada.id (createStudent ada emptyStore).2 = .ok ada :=
  create_then_get_roundtrip ada emptyStore (by decide) (by decide)
    (by decide) (by decide) rfl

/-- C5: an Update whose body id differs from the (valid) path id fails
with `invalidInput` and leaves the store unchanged, whether or not a
record exists at the path id. -/
theorem update_body_id_mismatch (id : Int) (s : Student) (st : Store)
    (hid : validateID id) (hne : s.id ≠ id) :
    updateStudent id s st = (.error .invalidInput, st) := by
  simp [updateStudent, hid, hne]

/-- C5 witness: updating path id 23456789 with a body carrying id
12345678 is rejected. -/
theorem update_body_id_mismatch_witness :
    updateStudent 23456789 ada emptyStore = (.error .invalidInput, emptyStore) :=
  update_body_id_mismatch 23456789 ada emptyStore (by decide) (by decide)

/-- C6: deleting a present record at a valid id succeeds with no content,
and a subsequent Get on the same id fails with `notFound`. -/
theorem delete_then_get_not_found (id : Int) (st : Store) (t : Student)
    (hid : validateID id) (hpres : st id = some t) :
    (deleteStudent id st).1 = .ok () ∧
    getStudent id (deleteStudent id st).2 = .error .notFound := by
  constructor
  · simp [deleteStudent, hid, hpres]
  · simp [deleteStudent, getStudent, hid, hpres, eraseS]

/-- C6 witness: delete then get on the worked example's id. -/
theorem delete_then_get_not_found_witness :
    (deleteStudent 12345678 (createStudent ada emptyStore).2).1 = .ok () ∧
    getStudent 12345678 (deleteStudent 12345678 (createStudent ada emptyStore).2).2 =
      .error .notFound :=
  delete_then_get_not_found 12345678 (createStudent ada emptyStore).2 ada
    (by decide) rfl

/-- C10: every mutating operation, succeeding or failing, leaves the
record stored under every key other than the one it targets unchanged. -/
theorem mutations_frame (st : Store) (k : Int) :
    (∀ s : Student, k ≠ s.id → (createStudent s st).2 k = st k) ∧
    (∀ (id : Int) (s : Student), k ≠ id → (updateStudent id s st).2 k = st k) ∧
    (∀ id : Int, k ≠ id → (deleteStudent id st).2 k = st k) := by
  refine ⟨fun s hne => ?_, fun id s hne => ?_, fun id hne => ?_⟩
  · unfold createStudent
    split
    · rfl
    · split
      · rfl
      · split
        · rfl
        · simp [insertS, hne]
  · unfold updateStudent
    split
    · rfl
    · split
      · rfl
      · split
        · rfl
        · split
          · rfl
          · simp [insertS, hne]
  · unfold deleteStudent
    split
    · rfl
    · split
      · rfl
      · simp [eraseS, hne]

/-- C10 witness: key 1 is untouched by a create, an update and a delete
aimed at id 12345678. -/
theorem mutations_frame_witness :
    (createStudent ada emptyStore).2 1 = emptyStore 1 ∧
    (updateStudent 12345678 ada emptyStore).2 1 = emptyStore 1 ∧
    (deleteStudent 12345678 emptyStore).2 1 = emptyStore 1 :=
  ⟨(mutations_frame emptyStore 1).1 ada (by decide),
   (mutations_frame emptyStore 1).2.1 12345678 ada (by decide),
   (mutations_frame emptyStore 1).2.2 12345678 (by decide)⟩

/-- C7: with the remote service unavailable (`useOllama = false`), the
generation step always succeeds with exactly the template sentence built
from the record's name, age and email, whatever the remote oracle does. -/
theorem fallback_generation_deterministic (student : Student)
    (svc : RemoteService) :
    generateSummary false student svc =
      .ok ("Student " ++ student.name ++ " is " ++ toString student.age ++
        " years old and can be contacted at " ++ student.email ++ ".") := by
  have hne := fallbackText_ne_empty student
  simp only [generateSummary, generateFallbackSummary, finishSummary,
    Bool.false_eq_true, if_false]
  rw [if_neg hne]
  rfl

/-- C8: with `useOllama = true`, a non-200 status, an unparseable body,
or a body without a string `response` field each make the generation step
fail with `generationFailed` carrying the corresponding cause; the
fallback template is never used. -/
theorem remote_failure_propagates (student : Student) (svc : RemoteService)
    (r : HttpResponse) (h : svc (ollamaPrompt student) = .response r) :
    (r.status ≠ 200 →
      generateSummary true student svc =
        .error (.generationFailed (.httpStatus r.status))) ∧
    (r.body = .malformed → r.status = 200 →
      generateSummary true student svc = .error (.generationFailed .decode)) ∧
    (r.body = .missingField → r.status = 200 →
      generateSummary true student svc = .error (.generationFailed .badFormat)) := by
  refine ⟨fun hs => ?_, fun hb hs => ?_, fun hb hs => ?_⟩
  · simp [generateSummary, generateSummaryWithOllama, finishSummary, h, hs]
  · simp [generateSummary, generateSummaryWithOllama, finishSummary, h, hs, hb]
  · simp [generateSummary, generateSummaryWithOllama, finishSummary, h, hs, hb]

/-- C8 witness: a 500 response from the remote service surfaces as a
`generationFailed` error with status 500. -/
theorem remote_failure_propagates_witness :
    generateSummary true ada (fun _ => .response ⟨500, .field "hi"⟩) =
      .error (.generationFailed (.httpStatus 500)) :=
  (remote_failure_propagates ada (fun _ => .response ⟨500, .field "hi"⟩)
    ⟨500, .field "hi"⟩ rfl).1 (by decide)

/-- C9: the generation step maps an empty successful summary to the
`emptySummary` error; the remote path never returns an empty summary
successfully, and the fallback path always returns a non-empty one, so
the branch is defensive. -/
theorem empty_summary_guard :
    finishSummary (.ok "") = .error .emptySummary ∧
    (∀ (student : Student) (svc : RemoteService) (t : String),
      generateSummaryWithOllama student svc = .ok t → 0 < t.length) ∧
    (∀ student : Student, ∃ t,
      generateFallbackSummary student = .ok t ∧ 0 < t.length) := by
  refine ⟨rfl, fun student svc t hok => ?_, fun student =>
    ⟨fallbackText student, rfl,
      length_pos_of_ne_empty _ (fallbackText_ne_empty student)⟩⟩
  unfold generateSummaryWithOllama at hok
  cases hsvc : svc (ollamaPrompt student) with
  | transportError => rw [hsvc] at hok; cases hok
  | response r =>
    rw [hsvc] at hok
    obtain ⟨status, body⟩ := r
    by_cases hst : status ≠ 200
    · simp only [if_pos hst] at hok
      cases hok
    · simp only [if_neg hst] at hok
      cases body with
      | malformed => cases hok
      | missingField => cases hok
      | field s =>
        by_cases hs : s = ""
        · simp only [if_pos hs] at hok
          cases hok
        · simp only [if_neg hs] at hok
          cases hok
          exact length_pos_of_ne_empty _ hs

/-- C9 witness: the guard fires on an empty summary, a concrete remote
success is non-empty, and the worked example's fallback is non-empty. -/
theorem empty_summary_guard_witness :
    finishSummary (.ok "") = .error .emptySummary ∧
    0 < ("hi" : String).length ∧
    (∃ t, generateFallbackSummary ada = .ok t ∧ 0 < t.length) :=
  ⟨empty_summary_guard.1,
   empty_summary_guard.2.1 ada (fun _ => .response ⟨200, .field "hi"⟩) "hi" rfl,
   empty_summary_guard.2.2 ada⟩

/-- `validateID` unfolded to its arithmetic meaning. -/
lemma validateID_eq_true_iff (id : Int) :
    validateID id = true ↔ 10000000 ≤ id ∧ id ≤ 99999999 := by
  simp [validateID]

/-- The empty store satisfies the invariant. -/
lemma storeInv_empty : StoreInv emptyStore := by
  intro k s hks
  simp [emptyStore] at hks

/-- Inserting a valid record under its own id preserves the invariant. -/
lemma storeInv_insert (st : Store) (s : Student) (h : StoreInv st)
    (hid : validateID s.id) (hname : s.name ≠ "") (hmail : s.email ≠ "")
    (hage : 0 < s.age) : StoreInv (insertS st s.id s) := by
  intro k t hkt
  unfold insertS at hkt
  by_cases hk : k = s.id
  · rw [if_pos hk] at hkt
    cases hkt
    exact ⟨(validateID_eq_true_iff s.id).mp hid, hname, hmail, hage, hk.symm⟩
  · rw [if_neg hk] at hkt
    exact h k t hkt

/-- `createStudent` preserves the invariant: it only ever inserts a
record that passed both validation checks, keyed by its own id. -/
lemma createStudent_preserves_inv (s : Student) (st : Store)
    (h : StoreInv st) : StoreInv (createStudent s st).2 := by
  unfold createStudent
  by_cases h1 : ¬ validateID s.id
  · rw [if_pos h1]; exact h
  · rw [if_neg h1]
    by_cases h2 : s.name = "" ∨ s.age ≤ 0 ∨ s.email = ""
    · rw [if_pos h2]; exact h
    · rw [if_neg h2]
      rw [not_not] at h1
      push_neg at h2
      cases hlook : st s.id with
      | some t => exact h
      | none => exact storeInv_insert st s h h1 h2.1 h2.2.2 (by omega)

/-- `updateStudent` preserves the invariant: it replaces the record at
the path id only with a validated body whose id equals the path id. -/
lemma updateStudent_preserves_inv (id : Int) (s : Student) (st : Store)
    (h : StoreInv st) : StoreInv (updateStudent id s st).2 := by
  unfold updateStudent
  by_cases h1 : ¬ validateID id
  · rw [if_pos h1]; exact h
  · rw [if_neg h1]
    by_cases h2 : s.id ≠ id
    · rw [if_pos h2]; exact h
    · rw [if_neg h2]
      by_cases h3 : s.name = "" ∨ s.age ≤ 0 ∨ s.email = ""
      · rw [if_pos h3]; exact h
      · rw [if_neg h3]
        rw [not_not] at h1 h2
        push_neg at h3
        cases hlook : st id with
        | none => exact h
        | some t =>
          have := storeInv_insert st s h (h2 ▸ h1) h3.1 h3.2.2 (by omega)
          rwa [h2] at this

/-- `deleteStudent` preserves the invariant: it only removes entries. -/
lemma deleteStudent_preserves_inv (id : Int) (st : Store)
    (h : StoreInv st) : StoreInv (deleteStudent id st).2 := by
  unfold deleteStudent
  by_cases h1 : ¬ validateID id
  · rw [if_pos h1]; exact h
  · rw [if_neg h1]
    cases hlook : st id with
    | none => exact h
    | some t =>
      intro k u hku
      simp only [eraseS] at hku
      by_cases hk : k = id
      · rw [if_pos hk] at hku; cases hku
      · rw [if_neg hk] at hku; exact h k u hku

/-- C1: every reachable store state satisfies the invariant — every
stored record has an 8-digit id, non-empty name and email, positive age,
and sits under the key equal to its own id. -/
theorem reachable_store_inv (st : Store) (h : Reachable st) : StoreInv st := by
  induction h with
  | base => exact storeInv_empty
  | step op st' hr ih =>
    cases op with
    | create s => exact createStudent_preserves_inv s st' ih
    | update id s => exact updateStudent_preserves_inv id s st' ih
    | delete id => exact deleteStudent_preserves_inv id st' ih

/-- C1 witness: the invariant holds of the store reached by creating the
worked example record in the empty store. -/
theorem reachable_store_inv_witness :
    StoreInv (applyOp (.create ada) emptyStore) :=
  reachable_store_inv _ (Reachable.step (.create ada) emptyStore Reachable.base)

/-- C4 counterexample: with the worked example record stored, creating a
body that reuses its id but carries an empty name fails with
`invalidInput`, not `alreadyExists` — field validation runs before the
duplicate-id check, so the claim as stated fails for invalid bodies. -/
theorem create_existing_counterexample :
    (createStudent ada emptyStore).2 12345678 = some ada ∧
    (createStudent ⟨12345678, "", 30, "x@y.z"⟩ (createStudent ada emptyStore).2).1 =
      .error .invalidInput ∧
    ApiError.invalidInput ≠ ApiError.alreadyExists :=
  ⟨rfl, rfl, by decide⟩

/-- C4 (amended): creating a valid record whose id is already present
fails with `alreadyExists` and leaves the store — in particular the
record stored under that id — unchanged. -/
theorem create_existing_id_conflict (s t : Student) (st : Store)
    (hid : validateID s.id) (hname : s.name ≠ "") (hage : 0 < s.age)
    (hmail : s.email ≠ "") (hpres : st s.id = some t) :
    (createStudent s st).1 = .error .alreadyExists ∧
    (createStudent s st).2 = st ∧
    (createStudent s st).2 s.id = some t := by
  have hfields : ¬ (s.name = "" ∨ s.age ≤ 0 ∨ s.email = "") := by
    push_neg
    exact ⟨hname, by omega, hmail⟩
  refine ⟨?_, ?_, ?_⟩ <;> simp [createStudent, hid, hfields, hpres]

/-- C4 witness: re-creating the worked example record on top of itself is
rejected with `alreadyExists` and the stored record survives. -/
theorem create_existing_id_conflict_witness :
    (createStudent ada (createStudent ada emptyStore).2).1 = .error .alreadyExists ∧
    (createStudent ada (createStudent ada emptyStore).2).2 =
      (createStudent ada emptyStore).2 ∧
    (createStudent ada (createStudent ada emptyStore).2).2 ada.id = some ada :=
  create_existing_id_conflict ada ada (createStudent ada emptyStore).2
    (by decide) (by decide) (by decide) (by decide) rfl
